import Mathlib

/-!
Verification development for the GoodLuckFindAJob job-posting pipeline.

Shallow embedding of the pipeline core, translated from the Python sources:
  JDScraper/fetch_and_update.py   (master deduplication)
  JDScraper/scan_daily.py         (screening funnel driver and match parsing)
  JDScraper/screener.py           (quick keyword checks and classifier wrappers)
  JDScraper/stats_tracker.py      (statistics ledger)
  offerClick/backend/app/repository.py (identity, status overlay join, delete)

Modelling conventions:
  - Python str becomes Lean String; str.strip, str.lower, str.upper,
    str.startswith, str.splitlines, slicing s[:n], str.replace and the
    substring test are given explicit structural definitions below (pyStrip,
    pyLower, ...) so that every definition evaluates inside the kernel.
    They agree with Python semantics on the ASCII texts the pipeline handles.
  - CSV / JSON files become Lean lists and association lists; file IO becomes
    explicit state passing.
  - The text-classification service is an explicit parameter: each wrapper
    takes a client function returning Except (the error case models a raised
    exception anywhere inside the try block of the Python wrapper).
  - Python float parsing (float(s)) is modelled by pyFloat below, covering
    finite decimal literals with optional sign, fraction, exponent and
    digit-group underscores, plus inf, infinity and nan.
-/

namespace GLFJ

/-! ## Python string primitives -/

/-- Boolean prefix test on character lists (helper for substring search). -/
def chListPre : List Char → List Char → Bool
  | [], _ => true
  | _ :: _, [] => false
  | a :: as, b :: bs => a == b && chListPre as bs

/-- Substring search on character lists, Python style: needle occurs
contiguously in hay (the empty needle always occurs). -/
def chListSub : List Char → List Char → Bool
  | needle, [] => chListPre needle []
  | needle, c :: rest => chListPre needle (c :: rest) || chListSub needle rest

/-- Python substring membership test: needle in hay. -/
def pyIn (needle hay : String) : Bool :=
  chListSub needle.data hay.data

/-- Python str.strip(): remove leading and trailing whitespace. -/
def pyStrip (s : String) : String :=
  String.mk (((s.data.dropWhile Char.isWhitespace).reverse.dropWhile
    Char.isWhitespace).reverse)

/-- Python str.lower() (ASCII case folding). -/
def pyLower (s : String) : String :=
  String.mk (s.data.map Char.toLower)

/-- Python str.upper() (ASCII case folding). -/
def pyUpper (s : String) : String :=
  String.mk (s.data.map Char.toUpper)

/-- Python s.startswith(pre). -/
def pyStartsWith (s pre : String) : Bool :=
  chListPre pre.data s.data

/-- Python slicing s[:n] (by code point). -/
def pyTake (s : String) (n : Nat) : String :=
  String.mk (s.data.take n)

/-- Python str.splitlines on character lists: split at carriage-return,
line-feed or their pair, without a trailing empty line. The first argument
accumulates the current line in reverse. -/
def splitLinesCh : List Char → List Char → List (List Char)
  | [], cur => if cur.isEmpty then [] else [cur.reverse]
  | '\r' :: '\n' :: rest, cur => cur.reverse :: splitLinesCh rest []
  | '\r' :: rest, cur => cur.reverse :: splitLinesCh rest []
  | '\n' :: rest, cur => cur.reverse :: splitLinesCh rest []
  | c :: rest, cur => splitLinesCh rest (c :: cur)

/-- Python str.splitlines(). -/
def pySplitLines (s : String) : List String :=
  (splitLinesCh s.data []).map String.mk

/-- Python str.replace for a single-character target (the only form the
pipeline uses: replacing a newline or carriage return). -/
def replaceChar (tgt : Char) (rep : List Char) : List Char → List Char
  | [] => []
  | c :: rest => (if c == tgt then rep else [c]) ++ replaceChar tgt rep rest

/-- visa_reason.replace newline with space and drop carriage returns, as in
scan_daily.py when storing VISA_ANALYSIS. -/
def cleanVisaReason (s : String) : String :=
  String.mk (replaceChar '\r' [] (replaceChar '\n' [' '] s.data))

/-- Python sep.join(xs). -/
def joinSep (sep : String) : List String → String
  | [] => ""
  | [x] => x
  | x :: y :: rest => x ++ sep ++ joinSep sep (y :: rest)

/-- First split at a separator character on a list of characters.
Returns none when the separator does not occur. -/
def splitFirstCh (sep : Char) : List Char → Option (List Char × List Char)
  | [] => none
  | c :: rest =>
    if c == sep then some ([], rest)
    else match splitFirstCh sep rest with
      | none => none
      | some (a, b) => some (c :: a, b)

/-- Python s.split(sep, 1): none when sep is absent (parts list of length 1),
otherwise the text before and after the first occurrence. -/
def splitOnce (sep : Char) (s : String) : Option (String × String) :=
  match splitFirstCh sep s.data with
  | none => none
  | some (a, b) => some (String.mk a, String.mk b)

/-! ## Python float parsing (float(s)) -/

/-- Result of Python float(s): a finite value, positive or negative infinity,
or nan. A finite value is kept exact in scientific form: num n d denotes
n / 10 ^ d (integer and fraction arithmetic only, so that every comparison
evaluates inside the kernel). -/
inductive PFloat where
  | num (n : ℤ) (d : ℕ)
  | inf
  | ninf
  | nan
deriving DecidableEq, Repr

/-- The exact rational value of a finite parsed float. -/
def PFloat.val : PFloat → ℚ
  | PFloat.num n d => (n : ℚ) / 10 ^ d
  | _ => 0

/-- Parse a run of decimal digits that may contain single underscores between
digits. Returns the accumulated value, the number of digits consumed and the
rest of the input. An underscore not followed by a digit, or one appearing
before any digit, stops the run. -/
def parseDigs : List Char → Nat → Nat → (Nat × Nat × List Char)
  | [], acc, n => (acc, n, [])
  | c :: cs, acc, n =>
    if c.isDigit then parseDigs cs (acc * 10 + (c.toNat - 48)) (n + 1)
    else if c == '_' && n != 0 then
      match cs with
      | c2 :: cs2 =>
        if c2.isDigit then parseDigs cs2 (acc * 10 + (c2.toNat - 48)) (n + 2)
        else (acc, n, c :: cs)
      | [] => (acc, n, c :: cs)
    else (acc, n, c :: cs)

/-- Parse the numeric (finite) form of a Python float literal after the sign:
digits [ . digits ] [ (e) sign digits ], requiring full consumption. -/
def parseFiniteFloat (sgn : Int) (cs : List Char) : Option PFloat :=
  let (ip, ic, r1) := parseDigs cs 0 0
  let (fp, fc, r2) :=
    match r1 with
    | '.' :: r => parseDigs r 0 0
    | _ => (0, 0, r1)
  if ic + fc == 0 then none
  else
    let mant : ℤ := sgn * ((ip * 10 ^ fc + fp : ℕ) : ℤ)
    match r2 with
    | 'e' :: r3 =>
      let (eneg, r4) : Bool × List Char :=
        match r3 with
        | '+' :: r => (false, r)
        | '-' :: r => (true, r)
        | r => (false, r)
      let (ev, ec, r5) := parseDigs r4 0 0
      if ec == 0 then none
      else if r5.isEmpty then
        some (if eneg then PFloat.num mant (fc + ev)
              else PFloat.num (mant * (10 : ℤ) ^ ev) fc)
      else none
    | [] => some (PFloat.num mant fc)
    | _ => none

/-- Model of Python float(s): strips whitespace, lowercases (digits are
unaffected; this normalises E, INF, NAN), handles an optional sign, the
special values inf, infinity, nan, and finite decimal literals. Returns
none exactly when Python raises ValueError. -/
def pyFloat (s : String) : Option PFloat :=
  let cs := (pyLower (pyStrip s)).data
  let (sgn, cs1) : Int × List Char :=
    match cs with
    | '+' :: r => (1, r)
    | '-' :: r => (-1, r)
    | r => (1, r)
  if cs1 == "inf".toList || cs1 == "infinity".toList then
    some (if sgn == 1 then PFloat.inf else PFloat.ninf)
  else if cs1 == "nan".toList then some PFloat.nan
  else parseFiniteFloat sgn cs1

/-- Python comparison v >= t for a parsed float v against a finite (rational)
threshold t: nan compares false, +inf true, -inf false. The finite case
n / 10 ^ d >= t is decided by the equivalent integer comparison
t.num * 10 ^ d <= n * t.den. -/
def pfGe (v : PFloat) (t : ℚ) : Bool :=
  match v with
  | PFloat.num n d => decide (t.num * 10 ^ d ≤ n * (t.den : ℤ))
  | PFloat.inf => true
  | PFloat.ninf => false
  | PFloat.nan => false

/-! ## fetch_and_update.py: master deduplication -/

/-- One tabular posting record as seen by dedupe_against_master: the four
columns the function reads and normalises. Other columns are carried
unchanged by the Python code and are irrelevant to the dedup decision. -/
structure RawRec where
  title : String
  company : String
  location : String
  url : String
deriving DecidableEq, Repr

/-- The astype(str).str.strip() normalisation applied to the four key
columns of both the batch and the master. -/
def stripRec (r : RawRec) : RawRec :=
  { title := pyStrip r.title, company := pyStrip r.company,
    location := pyStrip r.location, url := pyStrip r.url }

/-- The (TITLE, COMPANY, LOCATION) fallback dedup key. -/
def tripleKey (r : RawRec) : String × String × String :=
  (r.title, r.company, r.location)

/-- dedupe_against_master from JDScraper/fetch_and_update.py: empty batch and
empty master are returned as-is; otherwise both sides are normalised, records
whose URL occurs in the master URL set are dropped, and among the remaining
records the URL-less ones (empty URL after stripping) are additionally
dropped when their (TITLE, COMPANY, LOCATION) triple occurs in the master.
The result concatenates the with-URL survivors and the URL-less survivors,
mirroring the final pd.concat. -/
def dedupe_against_master (df_raw df_master : List RawRec) : List RawRec :=
  if df_raw.isEmpty then df_raw
  else if df_master.isEmpty then df_raw
  else
    let raw := df_raw.map stripRec
    let master := df_master.map stripRec
    let seen_urls := master.map (fun m => m.url)
    let raw1 := raw.filter (fun r => !(seen_urls.contains r.url))
    let raw_has_url := raw1.filter (fun r => !(r.url.length == 0))
    let raw_no_url := raw1.filter (fun r => r.url.length == 0)
    let master_keys := master.map tripleKey
    let raw_no_url2 := raw_no_url.filter (fun r => !(master_keys.contains (tripleKey r)))
    raw_has_url ++ raw_no_url2

/-! ## stats_tracker.py: the statistics ledger -/

/-- One entry of the history array in scrape_stats.json. -/
inductive StatsEvent where
  | fetch (timestamp : String) (jobs_fetched : ℤ)
  | screening (timestamp : String)
      (visa_blocked senior_blocked match_failed passed : ℤ)
deriving DecidableEq, Repr

/-- The ledger structure of scrape_stats.json. Counters are integers, as in
Python. -/
structure ScrapeStats where
  last_fetch_time : Option String
  total_fetched : ℤ
  total_passed_screening : ℤ
  total_visa_blocked : ℤ
  total_senior_blocked : ℤ
  total_match_failed : ℤ
  history : List StatsEvent
deriving DecidableEq, Repr

/-- The default ledger returned by load_stats when the file is missing or
unreadable. -/
def default_stats : ScrapeStats :=
  { last_fetch_time := none, total_fetched := 0, total_passed_screening := 0,
    total_visa_blocked := 0, total_senior_blocked := 0, total_match_failed := 0,
    history := [] }

/-- update_fetch_stats from stats_tracker.py: set the last-fetch timestamp,
add the fetched count to the total and append one fetch history event.
The wall-clock timestamp is the explicit now argument. -/
def update_fetch_stats (now : String) (jobs_fetched : ℤ)
    (stats : ScrapeStats) : ScrapeStats :=
  { stats with
    last_fetch_time := some now,
    total_fetched := stats.total_fetched + jobs_fetched,
    history := stats.history ++ [StatsEvent.fetch now jobs_fetched] }

/-- update_screening_stats from stats_tracker.py: add each argument to its
cumulative counter, and append one screening history event when at least one
argument is truthy (nonzero), mirroring the Python guard
if any([visa_blocked, senior_blocked, match_failed, passed]). -/
def update_screening_stats (now : String)
    (visa_blocked senior_blocked match_failed passed : ℤ)
    (stats : ScrapeStats) : ScrapeStats :=
  let stats1 :=
    { stats with
      total_visa_blocked := stats.total_visa_blocked + visa_blocked,
      total_senior_blocked := stats.total_senior_blocked + senior_blocked,
      total_match_failed := stats.total_match_failed + match_failed,
      total_passed_screening := stats.total_passed_screening + passed }
  if visa_blocked ≠ 0 ∨ senior_blocked ≠ 0 ∨ match_failed ≠ 0 ∨ passed ≠ 0 then
    { stats1 with
      history := stats1.history ++
        [StatsEvent.screening now visa_blocked senior_blocked match_failed passed] }
  else stats1

/-- get_days_since_last_fetch from stats_tracker.py. Time is modelled in
seconds as exact rationals; parseIso stands for datetime.fromisoformat and
returns none when parsing raises (the except branch, which yields None).
An absent or empty (falsy) timestamp yields None. Otherwise the hour
difference is divided by 24, rounded up, and clamped to [1, max_days]. -/
def get_days_since_last_fetch (parseIso : String → Option ℚ) (max_days : ℤ)
    (now : ℚ) (stats : ScrapeStats) : Option ℤ :=
  match stats.last_fetch_time with
  | none => none
  | some ts =>
    if ts = "" then none
    else
      match parseIso ts with
      | none => none
      | some last_fetch =>
        let hours_diff : ℚ := (now - last_fetch) / 3600
        let days : ℤ := ⌈hours_diff / 24⌉
        some (max 1 (min days max_days))

/-! ## screener.py: quick keyword checks and classifier wrappers -/

/-- The fixed seniority keyword list of quick_senior_keyword_check. -/
def senior_keywords : List String :=
  ["senior", "sr.", "sr ", "lead", "principal",
   "chief", "director", "head of", "vp ", "vice president",
   "manager"]

/-- quick_senior_keyword_check from screener.py: false on an empty (falsy)
title, otherwise true when any seniority keyword occurs in the lowercased
title. -/
def quick_senior_keyword_check (title : String) : Bool :=
  if title = "" then false
  else
    let text := pyLower title
    senior_keywords.any (fun keyword => pyIn keyword text)

/-- The fixed visa-blocker phrase list of quick_visa_keyword_check. -/
def visa_blocker_keywords : List String :=
  ["us citizen only",
   "u.s. citizen only",
   "us citizenship required",
   "u.s. citizenship required",
   "must be a us citizen",
   "must be a u.s. citizen",
   "citizen of the united states",
   "citizenship is required",
   "green card only",
   "permanent resident only",
   "green card required",
   "cannot sponsor",
   "will not sponsor",
   "no visa sponsorship",
   "not eligible for visa sponsorship",
   "security clearance required",
   "secret clearance required",
   "top secret clearance",
   "ts/sci required",
   "ts clearance required",
   "sci clearance required",
   "dod clearance required",
   "active clearance required",
   "public trust clearance",
   "must obtain security clearance",
   "ability to obtain security clearance required",
   "clearance eligible"]

/-- quick_visa_keyword_check from screener.py: false on an empty (falsy)
description, otherwise true when any blocker phrase occurs in the lowercased
description. -/
def quick_visa_keyword_check (description : String) : Bool :=
  if description = "" then false
  else
    let text := pyLower description
    visa_blocker_keywords.any (fun keyword => pyIn keyword text)

/-- run_match_screener from screener.py. The classifier call is the client
argument: ok content is the raw response text, error e models an exception
raised by the call. The description is truncated to max_desc_length before
being sent. On success the stripped response is returned; on failure the
fixed failing default text. -/
def run_match_screener (client : String → Except String String)
    (max_desc_length : ℕ) (description : String) : String :=
  match client (pyTake description max_desc_length) with
  | Except.ok content => pyStrip content
  | Except.error _e => "Overall: 0\nReason: Error during screening."

/-- State of the line loop in run_combined_visa_senior_screener:
(visa_status, visa_reason, senior_status, senior_reason). -/
structure CombinedVerdict where
  visa_status : String
  visa_reason : String
  senior_status : String
  senior_reason : String
deriving DecidableEq, Repr

/-- One iteration of the parsing loop of run_combined_visa_senior_screener:
the line is stripped, matched against the four lowercase field markers, and
the corresponding field is updated; status values are normalised exactly as
in the Python code. -/
def combinedLineStep (st : CombinedVerdict) (line : String) : CombinedVerdict :=
  let line := pyStrip line
  if pyStartsWith (pyLower line) "visa_status:" then
    let v := pyUpper (pyStrip ((splitOnce ':' line).map Prod.snd |>.getD ""))
    let v := if pyIn "REJECT" v then "REJECT"
             else if pyIn "ACCEPT" v then "ACCEPT"
             else v
    { st with visa_status := v }
  else if pyStartsWith (pyLower line) "visa_reason:" then
    { st with visa_reason := pyStrip ((splitOnce ':' line).map Prod.snd |>.getD "") }
  else if pyStartsWith (pyLower line) "senior_status:" then
    let s := pyUpper (pyStrip ((splitOnce ':' line).map Prod.snd |>.getD ""))
    let s := if pyIn "NOT_SENIOR" s || pyIn "NOT SENIOR" s then "NOT_SENIOR"
             else if pyIn "SENIOR" s then "SENIOR"
             else "NOT_SENIOR"
    { st with senior_status := s }
  else if pyStartsWith (pyLower line) "senior_reason:" then
    { st with senior_reason := pyStrip ((splitOnce ':' line).map Prod.snd |>.getD "") }
  else st

/-- run_combined_visa_senior_screener from screener.py. On a successful call
the stripped response is split into lines and folded through the parsing
loop starting from the permissive defaults; on an exception the function
returns the permissive defaults ACCEPT / NOT_SENIOR with the error text as
both reasons. -/
def run_combined_visa_senior_screener (client : String → Except String String)
    (max_desc_length : ℕ) (description : String) : CombinedVerdict :=
  match client (pyTake description max_desc_length) with
  | Except.ok content =>
    let lines := pySplitLines (pyStrip content)
    lines.foldl combinedLineStep
      { visa_status := "ACCEPT", visa_reason := "Default allow",
        senior_status := "NOT_SENIOR", senior_reason := "Default allow" }
  | Except.error e =>
    { visa_status := "ACCEPT", visa_reason := "Error: " ++ e,
      senior_status := "NOT_SENIOR", senior_reason := "Error: " ++ e }

/-- The dictionary returned by extract_structured_jd_info, with list-valued
fields already joined into delimited strings. -/
structure JdInfo where
  technical_stack : String
  key_responsibilities : String
  required_experience : String
  success_metrics : String
  salary_range : String
  salary_is_estimated : Bool
deriving DecidableEq, Repr

/-- The N/A placeholder dictionary returned by extract_structured_jd_info
when the call or the JSON parse fails. -/
def jdInfoDefault : JdInfo :=
  { technical_stack := "N/A", key_responsibilities := "N/A",
    required_experience := "N/A", success_metrics := "N/A",
    salary_range := "N/A", salary_is_estimated := true }

/-- extract_structured_jd_info from screener.py. The client abstracts the
classifier call together with the JSON decoding and list joining of the
response; an error models any exception, answered by the N/A defaults. -/
def extract_structured_jd_info (client : String → Except String JdInfo)
    (max_desc_length : ℕ) (description : String) : JdInfo :=
  match client (pyTake description max_desc_length) with
  | Except.ok info => info
  | Except.error _e => jdInfoDefault

/-! ## scan_daily.py: match-output parsing -/

/-- The dictionary built by parse_match_output_to_dict (upper-case CSV
column names in the source). -/
structure MatchData where
  systems_fit : String
  retrieval_infra_fit : String
  algorithmic_ml_fit : String
  overall_match : String
  match_reason : String
deriving DecidableEq, Repr

/-- Loop state of parse_match_output_to_dict: the dictionary under
construction, the collected reason lines (in order) and the in-reason flag. -/
structure MatchParseState where
  data : MatchData
  reason_lines : List String
  in_reason : Bool

/-- One iteration of the line loop of parse_match_output_to_dict. Empty
lines are skipped; the five field markers set their fields (leaving the
in-reason flag as it was, as in the Python elif chain); a Reason: marker
turns the flag on and keeps same-line content; any other line is appended
to the reason when the flag is on. -/
def matchLineStep (st : MatchParseState) (line : String) : MatchParseState :=
  let line := pyStrip line
  if line = "" then st
  else if pyStartsWith line "Systems_Fit:" then
    { st with data.systems_fit :=
        pyStrip ((splitOnce ':' line).map Prod.snd |>.getD "") }
  else if pyStartsWith line "Retrieval_Infra_Fit:" then
    { st with data.retrieval_infra_fit :=
        pyStrip ((splitOnce ':' line).map Prod.snd |>.getD "") }
  else if pyStartsWith line "Algorithmic_ML_Fit:" then
    { st with data.algorithmic_ml_fit :=
        pyStrip ((splitOnce ':' line).map Prod.snd |>.getD "") }
  else if pyStartsWith line "Overall:" then
    { st with data.overall_match :=
        pyStrip ((splitOnce ':' line).map Prod.snd |>.getD "") }
  else if pyStartsWith line "Reason:" then
    let st := { st with in_reason := true }
    match splitOnce ':' line with
    | some (_, after) =>
      if pyStrip after ≠ "" then
        { st with reason_lines := st.reason_lines ++ [pyStrip after] }
      else st
    | none => st
  else if st.in_reason then
    { st with reason_lines := st.reason_lines ++ [line] }
  else st

/-- parse_match_output_to_dict from scan_daily.py: fold the line loop over
the split text and join the reason lines with a pipe separator. Empty
(falsy) text returns the defaults directly. -/
def parse_match_output_to_dict (text : String) : MatchData :=
  let init : MatchData :=
    { systems_fit := "UNKNOWN", retrieval_infra_fit := "UNKNOWN",
      algorithmic_ml_fit := "UNKNOWN", overall_match := "UNKNOWN",
      match_reason := "" }
  if text = "" then init
  else
    let final := (pySplitLines text).foldl matchLineStep
      { data := init, reason_lines := [], in_reason := false }
    { final.data with match_reason := joinSep " | " final.reason_lines }

/-- The Overall: extraction loop of parse_match_result: the first line whose
stripped form starts with Overall: contributes the stripped text after its
first colon, and the loop breaks; with no such line the default "0" stands. -/
def findOverallRating : List String → String
  | [] => "0"
  | line :: rest =>
    if pyStartsWith (pyStrip line) "Overall:" then
      match splitOnce ':' line with
      | some (_, after) => pyStrip after
      | none => "0"
    else findOverallRating rest

/-- parse_match_result from scan_daily.py, parameterised by the configured
MATCH_THRESHOLD (a finite number from screening.json). Returns
(is_pass, overall_rating). Empty (falsy) text fails with rating NONE.
A rating that parses as a float passes exactly when score >= threshold;
otherwise the legacy textual fallback passes when the uppercased rating
contains HIGH, MEDIUM or STRONG MATCH. -/
def parse_match_result (match_threshold : ℚ) (match_text : String) :
    Bool × String :=
  if match_text = "" then (false, "NONE")
  else
    let overall_rating := findOverallRating (pySplitLines match_text)
    match pyFloat overall_rating with
    | some score => (pfGe score match_threshold, overall_rating)
    | none =>
      let upper := pyUpper overall_rating
      if pyIn "HIGH" upper || pyIn "MEDIUM" upper || pyIn "STRONG MATCH" upper then
        (true, overall_rating)
      else (false, overall_rating)

/-! ## scan_daily.py: the screening funnel -/

/-- The status enum of offerClick/backend/app/models.py (JobStatus). -/
inductive JobStatus where
  | not_applied
  | applied
  | skipped
  | starred
deriving DecidableEq, Repr

/-- One row of a daily batch file jobs_YYYY-MM-DD.csv: the master columns
plus DESCRIPTION. -/
structure DailyRec where
  title : String
  company : String
  location : String
  search_city : String
  search_term : String
  url : String
  description : String
  source : String
  is_remote : String
deriving DecidableEq, Repr

/-- One row of the result store good_jobs.csv: the daily columns minus
DESCRIPTION, plus the structured-extraction fields, the match columns and
the visa analysis. -/
structure GoodRow where
  title : String
  company : String
  location : String
  search_city : String
  search_term : String
  url : String
  source : String
  is_remote : String
  technical_stack : String
  key_responsibilities : String
  required_experience : String
  success_metrics : String
  salary_range : String
  salary_is_estimated : Bool
  systems_fit : String
  retrieval_infra_fit : String
  algorithmic_ml_fit : String
  overall_match : String
  match_reason : String
  visa_analysis : String
deriving DecidableEq, Repr

/-- The three classifier endpoints scan_jobs depends on, as abstract
deterministic response functions (the network and model are outside the
core; the funnel only sees the request/response shape). -/
structure Oracle where
  combined : String → Except String String
  matchResp : String → Except String String
  extract : String → Except String JdInfo

/-- The row_data dictionary appended to good_jobs.csv for a passed record:
the daily row (minus DESCRIPTION) updated with the extraction fields, the
parsed match columns and the cleaned visa reason. -/
def mkGoodRow (r : DailyRec) (jd : JdInfo) (md : MatchData)
    (visa_reason : String) : GoodRow :=
  { title := r.title, company := r.company, location := r.location,
    search_city := r.search_city, search_term := r.search_term,
    url := r.url, source := r.source, is_remote := r.is_remote,
    technical_stack := jd.technical_stack,
    key_responsibilities := jd.key_responsibilities,
    required_experience := jd.required_experience,
    success_metrics := jd.success_metrics,
    salary_range := jd.salary_range,
    salary_is_estimated := jd.salary_is_estimated,
    systems_fit := md.systems_fit,
    retrieval_infra_fit := md.retrieval_infra_fit,
    algorithmic_ml_fit := md.algorithmic_ml_fit,
    overall_match := md.overall_match,
    match_reason := md.match_reason,
    visa_analysis := cleanVisaReason visa_reason }

/-- The terminal outcome of the per-record funnel stages of scan_jobs. -/
inductive Outcome where
  | senior_blocked
  | visa_blocked
  | match_failed
  | passed (row : GoodRow)
deriving DecidableEq, Repr

/-- The staged screening of one record inside the try block of scan_jobs,
in source order: quick senior keyword check on the title, quick visa
keyword check on the description, the combined classifier call
(SENIOR then non-ACCEPT reject), the match screener call with
parse_match_result, and on a pass the structured extraction call and the
construction of the appended row. Also returns the number of classifier
calls made for the record. -/
def screen_job (match_threshold : ℚ) (max_desc_length : ℕ) (o : Oracle)
    (r : DailyRec) : Outcome × ℕ :=
  if quick_senior_keyword_check r.title then (Outcome.senior_blocked, 0)
  else if quick_visa_keyword_check r.description then (Outcome.visa_blocked, 0)
  else
    let verdict := run_combined_visa_senior_screener o.combined
      max_desc_length r.description
    if verdict.senior_status = "SENIOR" then (Outcome.senior_blocked, 1)
    else if verdict.visa_status ≠ "ACCEPT" then (Outcome.visa_blocked, 1)
    else
      let match_output := run_match_screener o.matchResp
        max_desc_length r.description
      let pr := parse_match_result match_threshold match_output
      if pr.1 then
        let jd_info := extract_structured_jd_info o.extract
          max_desc_length r.description
        let match_data := parse_match_output_to_dict match_output
        (Outcome.passed (mkGoodRow r jd_info match_data verdict.visa_reason), 3)
      else (Outcome.match_failed, 2)

/-- The persistent and in-memory state scan_jobs acts on: the set of
already-processed URLs (loaded from good_jobs.csv and extended in memory),
the result store rows, and the status overlay file job_statuses.json.
The overlay is part of the state solely to express that the funnel never
touches it: scan_daily.py neither reads nor writes that file. -/
structure ScanState where
  processed_urls : Finset String
  good_jobs : List GoodRow
  overlay : List (String × JobStatus)
deriving DecidableEq

/-- Processing of one record of a daily file inside scan_jobs, returning
the new state and the number of classifier calls made: a record whose URL
is already processed is skipped before any screening, as is a record with
an empty (or whitespace-only) description; otherwise the staged screening
runs and a passed record is appended to the result store immediately, its
URL added to the processed set. Rejected records only affect counters,
which are not part of the persistent state. -/
def scanStep (match_threshold : ℚ) (max_desc_length : ℕ) (o : Oracle)
    (s : ScanState) (r : DailyRec) : ScanState × ℕ :=
  if r.url ∈ s.processed_urls then (s, 0)
  else if pyStrip r.description = "" then (s, 0)
  else
    match screen_job match_threshold max_desc_length o r with
    | (Outcome.passed row, n) =>
      ({ s with good_jobs := s.good_jobs ++ [row],
                processed_urls := insert r.url s.processed_urls }, n)
    | (_, n) => (s, n)

/-- The record loop of scan_jobs over one daily file, threading the state
and accumulating the classifier call count. -/
def scanFold (match_threshold : ℚ) (max_desc_length : ℕ) (o : Oracle)
    (s : ScanState) : List DailyRec → ScanState × ℕ
  | [] => (s, 0)
  | r :: rest =>
    let first := scanStep match_threshold max_desc_length o s r
    let tail := scanFold match_threshold max_desc_length o first.1 rest
    (tail.1, first.2 + tail.2)

/-- The URL set of a result store, as loaded at the start of scan_jobs
(the JOB_URL column of good_jobs.csv). -/
def urlsOf (rows : List GoodRow) : Finset String :=
  (rows.map (fun row => row.url)).toFinset

/-! ## repository.py: identity (hashlib.md5), overlay join, delete

The job identity is hashlib.md5 of the UTF-8 bytes of company|title|url,
hex digest truncated to 12 characters. MD5 is implemented below in full
(RFC 1321) over byte lists, with 32-bit words as naturals reduced mod 2^32.
-/

/-- The 64 MD5 round constants, floor(abs(sin(i + 1)) * 2^32). -/
def md5K : List ℕ :=
  [0xd76aa478, 0xe8c7b756, 0x242070db, 0xc1bdceee,
   0xf57c0faf, 0x4787c62a, 0xa8304613, 0xfd469501,
   0x698098d8, 0x8b44f7af, 0xffff5bb1, 0x895cd7be,
   0x6b901122, 0xfd987193, 0xa679438e, 0x49b40821,
   0xf61e2562, 0xc040b340, 0x265e5a51, 0xe9b6c7aa,
   0xd62f105d, 0x02441453, 0xd8a1e681, 0xe7d3fbc8,
   0x21e1cde6, 0xc33707d6, 0xf4d50d87, 0x455a14ed,
   0xa9e3e905, 0xfcefa3f8, 0x676f02d9, 0x8d2a4c8a,
   0xfffa3942, 0x8771f681, 0x6d9d6122, 0xfde5380c,
   0xa4beea44, 0x4bdecfa9, 0xf6bb4b60, 0xbebfbc70,
   0x289b7ec6, 0xeaa127fa, 0xd4ef3085, 0x04881d05,
   0xd9d4d039, 0xe6db99e5, 0x1fa27cf8, 0xc4ac5665,
   0xf4292244, 0x432aff97, 0xab9423a7, 0xfc93a039,
   0x655b59c3, 0x8f0ccc92, 0xffeff47d, 0x85845dd1,
   0x6fa87e4f, 0xfe2ce6e0, 0xa3014314, 0x4e0811a1,
   0xf7537e82, 0xbd3af235, 0x2ad7d2bb, 0xeb86d391]

/-- The 64 MD5 per-round left-rotation amounts. -/
def md5S : List ℕ :=
  [7, 12, 17, 22, 7, 12, 17, 22, 7, 12, 17, 22, 7, 12, 17, 22,
   5, 9, 14, 20, 5, 9, 14, 20, 5, 9, 14, 20, 5, 9, 14, 20,
   4, 11, 16, 23, 4, 11, 16, 23, 4, 11, 16, 23, 4, 11, 16, 23,
   6, 10, 15, 21, 6, 10, 15, 21, 6, 10, 15, 21, 6, 10, 15, 21]

/-- 32-bit left rotation of a word below 2^32, expressed arithmetically. -/
def rotl32 (x c : ℕ) : ℕ :=
  (x * 2 ^ c + x / 2 ^ (32 - c)) % 2 ^ 32

/-- 32-bit bitwise complement of a word below 2^32. -/
def not32 (x : ℕ) : ℕ := 2 ^ 32 - 1 - x

/-- One MD5 round: given the message-word accessor and the round index,
update the four-word state (RFC 1321 main loop body). -/
def md5Round (M : ℕ → ℕ) (st : ℕ × ℕ × ℕ × ℕ) (i : ℕ) : ℕ × ℕ × ℕ × ℕ :=
  let (a, b, c, d) := st
  let fg : ℕ × ℕ :=
    if i < 16 then ((b &&& c) ||| (not32 b &&& d), i)
    else if i < 32 then ((d &&& b) ||| (not32 d &&& c), (5 * i + 1) % 16)
    else if i < 48 then (b ^^^ c ^^^ d, (3 * i + 5) % 16)
    else (c ^^^ (b ||| not32 d), (7 * i) % 16)
  let sum := (a + fg.1 + md5K.getD i 0 + M fg.2) % 2 ^ 32
  (d, (b + rotl32 sum (md5S.getD i 0)) % 2 ^ 32, b, c)

/-- Process one 16-word block through the 64 rounds and add the result to
the running state, word-wise mod 2^32. -/
def md5Block (ws : List ℕ) (a0 b0 c0 d0 : ℕ) : ℕ × ℕ × ℕ × ℕ :=
  let M : ℕ → ℕ := fun g => ws.getD g 0
  let (a, b, c, d) := (List.range 64).foldl (md5Round M) (a0, b0, c0, d0)
  ((a0 + a) % 2 ^ 32, (b0 + b) % 2 ^ 32, (c0 + c) % 2 ^ 32, (d0 + d) % 2 ^ 32)

/-- Assemble four bytes into a little-endian 32-bit word. -/
def leWord (b0 b1 b2 b3 : ℕ) : ℕ :=
  b0 + 256 * (b1 + 256 * (b2 + 256 * b3))

/-- Group a byte list (whose length is a multiple of 4) into little-endian
words. -/
def chunkWords : List ℕ → List ℕ
  | b0 :: b1 :: b2 :: b3 :: rest => leWord b0 b1 b2 b3 :: chunkWords rest
  | _ => []

/-- Fold the word stream, 16 words (one 512-bit block) at a time, through
md5Block. -/
def md5Blocks (a b c d : ℕ) : List ℕ → ℕ × ℕ × ℕ × ℕ
  | w0 :: w1 :: w2 :: w3 :: w4 :: w5 :: w6 :: w7 ::
    w8 :: w9 :: w10 :: w11 :: w12 :: w13 :: w14 :: w15 :: rest =>
    let (a1, b1, c1, d1) := md5Block
      [w0, w1, w2, w3, w4, w5, w6, w7, w8, w9, w10, w11, w12, w13, w14, w15]
      a b c d
    md5Blocks a1 b1 c1 d1 rest
  | _ => (a, b, c, d)

/-- MD5 padding: append 0x80, zero bytes up to 56 mod 64, then the original
length in bits as a 64-bit little-endian quantity. -/
def md5Pad (msg : List ℕ) : List ℕ :=
  let bitLen := (8 * msg.length) % 2 ^ 64
  let padZeros := (119 - msg.length % 64) % 64
  msg ++ [0x80] ++ List.replicate padZeros 0 ++
    (List.range 8).map (fun i => bitLen / 256 ^ i % 256)

/-- The UTF-8 bytes of a string (str.encode()). -/
def strBytes (s : String) : List ℕ :=
  (String.toUTF8 s).toList.map (fun b => b.toNat)

/-- Little-endian byte decomposition of a 32-bit word. -/
def wordLEBytes (x : ℕ) : List ℕ :=
  [x % 256, x / 256 % 256, x / 65536 % 256, x / 16777216 % 256]

/-- Lowercase hexadecimal digit. -/
def hexChar (n : ℕ) : Char :=
  if n < 10 then Char.ofNat (48 + n) else Char.ofNat (87 + n)

/-- Two lowercase hexadecimal digits of a byte. -/
def byteHex (b : ℕ) : List Char :=
  [hexChar (b / 16), hexChar (b % 16)]

/-- The 16 digest bytes of hashlib.md5 of a string. -/
def md5Digest (s : String) : List ℕ :=
  let (a, b, c, d) := md5Blocks 0x67452301 0xefcdab89 0x98badcfe 0x10325476
    (chunkWords (md5Pad (strBytes s)))
  wordLEBytes a ++ wordLEBytes b ++ wordLEBytes c ++ wordLEBytes d

/-- hashlib.md5(s.encode()).hexdigest(). -/
def md5hex (s : String) : String :=
  String.mk ((md5Digest s).map byteHex).flatten

/-- The _generate_job_id method of repository.py: the first 12 hex-digest
characters of the MD5 of company|title|url. (The Lean name drops the
leading underscore.) -/
def generate_job_id (company title url : String) : String :=
  pyTake (md5hex (company ++ "|" ++ title ++ "|" ++ url)) 12

/-- Python truthiness of the overlay-independent string flags of
_csv_row_to_job: x.lower() in ("true", "1", "yes"). -/
def pyBool3 (s : String) : Bool :=
  pyLower s = "true" || pyLower s = "1" || pyLower s = "yes"

/-- The Job model of models.py, restricted to the identity, record and
status fields plus the structured JD block. The derived presentation
fields (match_score, tags, match_explanation, recommended_projects,
resume_versions, jd_raw) are enrichments computed by _parse_match_analysis
and the tag extraction; no verified property below refers to them, and
they do not feed back into any persistent store. -/
structure Job where
  id : String
  company : String
  role : String
  location : String
  url : String
  remote : Bool
  status : JobStatus
  source : String
  visa_analysis : String
  jd_structured : JdInfo
deriving DecidableEq, Repr

/-- The _csv_row_to_job method of repository.py (identity, status join and
record fields): the identity is generated from (COMPANY, TITLE, JOB_URL),
and the status is the overlay entry for that identity, defaulting to
not_applied when absent — statuses.get(job_id, "not_applied"). The overlay
file job_statuses.json is modelled as an association list with JobStatus
values, the only values _save_statuses ever writes. -/
def csv_row_to_job (row : GoodRow)
    (statuses : List (String × JobStatus)) : Job :=
  let job_id := generate_job_id row.company row.title row.url
  { id := job_id,
    company := row.company,
    role := row.title,
    location := row.location,
    url := row.url,
    remote := pyBool3 row.is_remote,
    status := (statuses.lookup job_id).getD JobStatus.not_applied,
    source := row.source,
    visa_analysis := row.visa_analysis,
    jd_structured :=
      { technical_stack := row.technical_stack,
        key_responsibilities := row.key_responsibilities,
        required_experience := row.required_experience,
        success_metrics := row.success_metrics,
        salary_range := row.salary_range,
        salary_is_estimated := row.salary_is_estimated } }

/-- get_all of repository.py for the CSV result store: read every row and
join it with the status overlay. (The read cache and the skipping of
unparseable rows are not modelled; rows are already structured here.) -/
def get_all (rows : List GoodRow)
    (statuses : List (String × JobStatus)) : List Job :=
  rows.map (fun row => csv_row_to_job row statuses)

/-- get_by_id of repository.py: the first job of get_all whose id matches.
(The resume-version hydration performed on the found job is not modelled;
it does not affect which job is found, nor the none case.) -/
def get_by_id (rows : List GoodRow) (statuses : List (String × JobStatus))
    (job_id : String) : Option Job :=
  (get_all rows statuses).find? (fun job => job.id == job_id)

/-- The persistent state owned by the repository: the result store
good_jobs.csv, the status overlay job_statuses.json and the
resume_versions.json bookkeeping (its entries modelled as opaque version
lists keyed by identity). -/
structure RepoState where
  good_jobs : List GoodRow
  statuses : List (String × JobStatus)
  resume_versions : List (String × List String)
deriving DecidableEq

/-- delete_job of repository.py (CSV branch): when get_by_id finds no job
the method returns False before touching any file; otherwise the rows whose
regenerated identity equals the id are removed from the result store, and
the overlay and resume-version entries for the id are removed. -/
def delete_job (st : RepoState) (job_id : String) : Bool × RepoState :=
  match get_by_id st.good_jobs st.statuses job_id with
  | none => (false, st)
  | some _job =>
    let rows := st.good_jobs.filter (fun row =>
      !(generate_job_id row.company row.title row.url == job_id))
    let statuses := st.statuses.filter (fun p => !(p.1 == job_id))
    let versions := st.resume_versions.filter (fun p => !(p.1 == job_id))
    (true, { good_jobs := rows, statuses := statuses,
             resume_versions := versions })

/-- update_status of repository.py: store the given status for the identity
in the overlay (the only way the overlay is mutated, an explicit API
action). -/
def update_status (st : RepoState) (job_id : String) (status : JobStatus) :
    RepoState :=
  { st with statuses :=
      (st.statuses.filter (fun p => !(p.1 == job_id))) ++ [(job_id, status)] }

/-! ## Concrete fixtures used in closed statements below -/

/-- A concrete result-store row. -/
def row0 : GoodRow :=
  { title := "Engineer", company := "Acme", location := "NYC",
    search_city := "New York", search_term := "swe", url := "u0",
    source := "indeed", is_remote := "false",
    technical_stack := "go", key_responsibilities := "build",
    required_experience := "2y", success_metrics := "uptime",
    salary_range := "100k", salary_is_estimated := true,
    systems_fit := "70", retrieval_infra_fit := "70",
    algorithmic_ml_fit := "70", overall_match := "70",
    match_reason := "fits", visa_analysis := "ok" }

/-- The identity the repository generates for row0. -/
def row0_id : String := generate_job_id row0.company row0.title row0.url

/-! # Theorems -/

/-! ## Shared helper lemmas -/

/-- Hex expansion doubles the byte count. -/
theorem byteHex_flatten_length (l : List ℕ) :
    ((l.map byteHex).flatten).length = 2 * l.length := by
  induction l with
  | nil => simp
  | cons a t ih =>
    simp only [List.map_cons, List.flatten_cons, List.length_append, ih,
      byteHex, List.length_cons, List.length_nil]
    omega

/-- The MD5 digest always has 16 bytes. -/
theorem md5Digest_length (s : String) : (md5Digest s).length = 16 := by
  unfold md5Digest
  rcases h : md5Blocks 0x67452301 0xefcdab89 0x98badcfe 0x10325476
      (chunkWords (md5Pad (strBytes s))) with ⟨a, b, c, d⟩
  simp [h, wordLEBytes]

/-- The MD5 hex digest always has 32 characters. -/
theorem md5hex_length (s : String) : (md5hex s).length = 32 := by
  show ((md5Digest s).map byteHex).flatten.length = 32
  rw [byteHex_flatten_length, md5Digest_length]

/-- Length of a Python slice s[:n]. -/
theorem pyTake_length (s : String) (n : ℕ) :
    (pyTake s n).length = min n s.length := by
  show (s.data.take n).length = min n s.length
  exact List.length_take n s.data

/-! ## C10: delete_job on a missing id -/

/-- C10: for every job_id for which get_by_id returns none, delete_job
returns False and leaves the result store, the status overlay and the
resume-versions bookkeeping unchanged. -/
theorem delete_job_missing_id_noop (st : RepoState) (job_id : String)
    (h : get_by_id st.good_jobs st.statuses job_id = none) :
    delete_job st job_id = (false, st) := by
  unfold delete_job
  rw [h]

/-- Witness for C10 at the empty repository and an arbitrary id. -/
theorem delete_job_missing_id_noop_witness :
    get_by_id ([] : List GoodRow) [] "deadbeefdead" = none ∧
    delete_job { good_jobs := [], statuses := [], resume_versions := [] }
      "deadbeefdead"
      = (false, { good_jobs := [], statuses := [], resume_versions := [] }) :=
  ⟨rfl, delete_job_missing_id_noop _ _ rfl⟩

/-! ## C8: identity generation is pure and deterministic -/

/-- C8: generate_job_id is a pure function of (company, title, url):
computing it twice yields the same value, the value factors through the
combined company|title|url string via the fixed MD5 hex digest, it is
always 12 characters, and equal inputs give equal identities. -/
theorem generate_job_id_pure :
    ∀ company title url : String,
      generate_job_id company title url = generate_job_id company title url
      ∧ generate_job_id company title url
          = pyTake (md5hex (company ++ "|" ++ title ++ "|" ++ url)) 12
      ∧ (generate_job_id company title url).length = 12
      ∧ (∀ c2 t2 u2 : String, company = c2 → title = t2 → url = u2 →
          generate_job_id company title url = generate_job_id c2 t2 u2) := by
  intro company title url
  refine ⟨rfl, rfl, ?_, ?_⟩
  · unfold generate_job_id
    rw [pyTake_length, md5hex_length]
    decide
  · intro c2 t2 u2 h1 h2 h3
    subst h1; subst h2; subst h3
    rfl

/-- Witness for C8 at concrete strings. -/
theorem generate_job_id_pure_witness :
    generate_job_id "Acme" "Engineer" "u0"
      = generate_job_id "Acme" "Engineer" "u0" :=
  (generate_job_id_pure "Acme" "Engineer" "u0").2.2.2 "Acme" "Engineer" "u0"
    rfl rfl rfl

/-! ## C6: statistics ledger additivity -/

/-- The four screening counters are incremented by exactly the four
arguments, whether or not a history event is appended. -/
theorem uss_counters (now : String) (v s m p : ℤ) (st : ScrapeStats) :
    (update_screening_stats now v s m p st).total_visa_blocked
        = st.total_visa_blocked + v
    ∧ (update_screening_stats now v s m p st).total_senior_blocked
        = st.total_senior_blocked + s
    ∧ (update_screening_stats now v s m p st).total_match_failed
        = st.total_match_failed + m
    ∧ (update_screening_stats now v s m p st).total_passed_screening
        = st.total_passed_screening + p := by
  unfold update_screening_stats
  split <;> exact ⟨rfl, rfl, rfl, rfl⟩

/-- A screening call with a truthy argument appends exactly the one
screening event. -/
theorem uss_history_pos (now : String) (v s m p : ℤ) (st : ScrapeStats)
    (h : v ≠ 0 ∨ s ≠ 0 ∨ m ≠ 0 ∨ p ≠ 0) :
    (update_screening_stats now v s m p st).history
      = st.history ++ [StatsEvent.screening now v s m p] := by
  unfold update_screening_stats
  rw [if_pos h]

/-- A screening call with four zero arguments leaves the history alone. -/
theorem uss_history_zero (now : String) (st : ScrapeStats) :
    (update_screening_stats now 0 0 0 0 st).history = st.history := by
  unfold update_screening_stats
  rw [if_neg (by simp)]

/-- Counterexample to C6 as stated: a recordScreening call whose four
arguments are all zero appends no history event at all, not exactly one. -/
theorem screening_stats_zero_call_appends_no_event :
    (update_screening_stats "2026-01-01T00:00:00" 0 0 0 0
        default_stats).history.length
      ≠ default_stats.history.length + 1 := by decide

/-- C6 amended: recordFetch and recordScreening increment each cumulative
counter by exactly the corresponding argument and recordFetch appends
exactly one timestamped history event; recordScreening appends exactly one
timestamped history event when at least one argument is nonzero and none
when all four are zero. In particular two consecutive recordScreening calls
with (1,0,0,0) and (0,1,0,0) add one to visa_blocked, one to
senior_blocked, and two history entries. -/
theorem stats_updates_additive (now now2 : String) (n v s m p : ℤ)
    (st : ScrapeStats) :
    (update_fetch_stats now n st).total_fetched = st.total_fetched + n
    ∧ (update_fetch_stats now n st).last_fetch_time = some now
    ∧ (update_fetch_stats now n st).history
        = st.history ++ [StatsEvent.fetch now n]
    ∧ (update_screening_stats now v s m p st).total_visa_blocked
        = st.total_visa_blocked + v
    ∧ (update_screening_stats now v s m p st).total_senior_blocked
        = st.total_senior_blocked + s
    ∧ (update_screening_stats now v s m p st).total_match_failed
        = st.total_match_failed + m
    ∧ (update_screening_stats now v s m p st).total_passed_screening
        = st.total_passed_screening + p
    ∧ ((v ≠ 0 ∨ s ≠ 0 ∨ m ≠ 0 ∨ p ≠ 0) →
        (update_screening_stats now v s m p st).history
          = st.history ++ [StatsEvent.screening now v s m p])
    ∧ (v = 0 ∧ s = 0 ∧ m = 0 ∧ p = 0 →
        (update_screening_stats now v s m p st).history = st.history)
    ∧ (update_screening_stats now2 0 1 0 0
        (update_screening_stats now 1 0 0 0 st)).total_visa_blocked
        = st.total_visa_blocked + 1
    ∧ (update_screening_stats now2 0 1 0 0
        (update_screening_stats now 1 0 0 0 st)).total_senior_blocked
        = st.total_senior_blocked + 1
    ∧ (update_screening_stats now2 0 1 0 0
        (update_screening_stats now 1 0 0 0 st)).history.length
        = st.history.length + 2 := by
  refine ⟨rfl, rfl, rfl,
    (uss_counters now v s m p st).1,
    (uss_counters now v s m p st).2.1,
    (uss_counters now v s m p st).2.2.1,
    (uss_counters now v s m p st).2.2.2,
    uss_history_pos now v s m p st, ?_, ?_, ?_, ?_⟩
  · rintro ⟨h1, h2, h3, h4⟩
    subst h1; subst h2; subst h3; subst h4
    exact uss_history_zero now st
  · rw [(uss_counters now2 0 1 0 0 _).1,
      (uss_counters now 1 0 0 0 st).1]
    ring
  · rw [(uss_counters now2 0 1 0 0 _).2.1,
      (uss_counters now 1 0 0 0 st).2.1]
    ring
  · rw [uss_history_pos now2 0 1 0 0 _ (by norm_num),
      uss_history_pos now 1 0 0 0 st (by norm_num)]
    simp

/-- Witness for C6 amended, exercising the two-call example on the default
ledger and the one-event append with a nonzero argument. -/
theorem stats_updates_additive_witness :
    (((1 : ℤ) ≠ 0 ∨ (0 : ℤ) ≠ 0 ∨ (0 : ℤ) ≠ 0 ∨ (0 : ℤ) ≠ 0) ∧
      (update_screening_stats "t1" 1 0 0 0 default_stats).history
        = default_stats.history ++ [StatsEvent.screening "t1" 1 0 0 0])
    ∧ (update_screening_stats "t2" 0 1 0 0
        (update_screening_stats "t1" 1 0 0 0 default_stats)).history.length
        = default_stats.history.length + 2 :=
  ⟨⟨by decide,
    (stats_updates_additive "t1" "t2" 0 1 0 0 0 default_stats).2.2.2.2.2.2.2.1
      (by decide)⟩,
   (stats_updates_additive "t1" "t2" 0 1 0 0 0
      default_stats).2.2.2.2.2.2.2.2.2.2.2⟩

/-! ## C9: days since last fetch -/

/-- C9: for max_days >= 1, get_days_since_last_fetch returns none when no
fetch was ever recorded, and otherwise (a recorded, non-empty, parseable
timestamp) returns the ceiling of the elapsed seconds in 24-hour units
(86400 s), clamped to the interval [1, max_days]. -/
theorem days_since_last_fetch_spec (parseIso : String → Option ℚ)
    (max_days : ℤ) (hmd : 1 ≤ max_days) (now : ℚ) (st : ScrapeStats) :
    (st.last_fetch_time = none →
      get_days_since_last_fetch parseIso max_days now st = none)
    ∧ (∀ ts last_fetch, st.last_fetch_time = some ts → ts ≠ "" →
        parseIso ts = some last_fetch →
        get_days_since_last_fetch parseIso max_days now st
          = some (max 1 (min ⌈(now - last_fetch) / 86400⌉ max_days))
        ∧ (∀ d, get_days_since_last_fetch parseIso max_days now st = some d →
            1 ≤ d ∧ d ≤ max_days)) := by
  constructor
  · intro h
    simp [get_days_since_last_fetch, h]
  · intro ts last_fetch h1 h2 h3
    have hval : get_days_since_last_fetch parseIso max_days now st
        = some (max 1 (min ⌈(now - last_fetch) / 3600 / 24⌉ max_days)) := by
      simp [get_days_since_last_fetch, h1, h2, h3]
    have h86 : (now - last_fetch) / 3600 / 24 = (now - last_fetch) / 86400 := by
      ring
    rw [h86] at hval
    refine ⟨hval, ?_⟩
    intro d hd
    rw [hval] at hd
    have hd2 : d = max 1 (min ⌈(now - last_fetch) / 86400⌉ max_days) :=
      (Option.some.injEq _ _ ▸ hd).symm
    subst hd2
    exact ⟨le_max_left _ _, max_le hmd (min_le_right _ _)⟩

/-- Witness for C9: a ledger with a recorded timestamp, a parser placing it
at time 0, and the clock at 90000 seconds (25 hours). -/
theorem days_since_last_fetch_spec_witness :
    get_days_since_last_fetch (fun _ => some 0) 14 90000
        { last_fetch_time := some "2026-01-01T00:00:00", total_fetched := 0,
          total_passed_screening := 0, total_visa_blocked := 0,
          total_senior_blocked := 0, total_match_failed := 0, history := [] }
      = some (max 1 (min ⌈((90000 : ℚ) - 0) / 86400⌉ 14)) :=
  ((days_since_last_fetch_spec (fun _ => some 0) 14 (by decide) 90000
      _).2 "2026-01-01T00:00:00" 0 rfl (by decide) rfl).1

/-! ## C5: fail-soft classifier defaults -/

/-- C5: when the combined visa/seniority call raises, the screener returns
the permissive defaults ACCEPT and NOT_SENIOR (with the error text as the
reasons); when the relevance-scoring call raises, the returned output has
Overall value 0, which parse_match_result rejects for any positive
configured threshold — in both cases the record is scored with explicit
defaults instead of being dropped. -/
theorem classifier_failure_defaults (e : String) (max_desc_length : ℕ)
    (description : String) (match_threshold : ℚ)
    (hT : 0 < match_threshold) :
    run_combined_visa_senior_screener (fun _ => Except.error e)
        max_desc_length description
      = { visa_status := "ACCEPT", visa_reason := "Error: " ++ e,
          senior_status := "NOT_SENIOR", senior_reason := "Error: " ++ e }
    ∧ run_match_screener (fun _ => Except.error e) max_desc_length description
      = "Overall: 0\nReason: Error during screening."
    ∧ (parse_match_result match_threshold
        (run_match_screener (fun _ => Except.error e) max_desc_length
          description)).2 = "0"
    ∧ (parse_match_result match_threshold
        (run_match_screener (fun _ => Except.error e) max_desc_length
          description)).1 = false := by
  have hov : findOverallRating
      (pySplitLines "Overall: 0\nReason: Error during screening.") = "0" := by
    decide
  have hpf : pyFloat "0" = some (PFloat.num 0 0) := by decide
  have hparse : parse_match_result match_threshold
      "Overall: 0\nReason: Error during screening."
      = (pfGe (PFloat.num 0 0) match_threshold, "0") := by
    unfold parse_match_result
    rw [if_neg (by decide :
      ¬("Overall: 0\nReason: Error during screening." = ""))]
    rw [hov]
    simp only [hpf]
  have hfail : pfGe (PFloat.num 0 0) match_threshold = false := by
    have hnum : 0 < match_threshold.num := Rat.num_pos.mpr hT
    unfold pfGe
    rw [decide_eq_false_iff_not]
    push_neg
    calc (0 : ℤ) * (match_threshold.den : ℤ) = 0 := by ring
      _ < match_threshold.num * 10 ^ (0 : ℕ) := by
          rw [pow_zero, mul_one]; exact hnum
  refine ⟨rfl, rfl, ?_, ?_⟩
  · show (parse_match_result match_threshold
      "Overall: 0\nReason: Error during screening.").2 = "0"
    rw [hparse]
  · show (parse_match_result match_threshold
      "Overall: 0\nReason: Error during screening.").1 = false
    rw [hparse, hfail]

/-- Witness for C5 at a concrete error, description and threshold 70. -/
theorem classifier_failure_defaults_witness :
    (0 : ℚ) < 70
    ∧ run_combined_visa_senior_screener (fun _ => Except.error "boom") 100 "jd"
      = { visa_status := "ACCEPT", visa_reason := "Error: boom",
          senior_status := "NOT_SENIOR", senior_reason := "Error: boom" }
    ∧ (parse_match_result 70
        (run_match_screener (fun _ => Except.error "boom") 100 "jd")).1
      = false :=
  ⟨by decide,
   (classifier_failure_defaults "boom" 100 "jd" 70 (by decide)).1,
   (classifier_failure_defaults "boom" 100 "jd" 70 (by decide)).2.2.2⟩

/-! ## C4: seniority keyword rejects before any classifier call -/

/-- C4: a record that enters screening (URL not yet processed, non-empty
description) and whose title matches the seniority keyword list is rejected
as senior_blocked at the quick title-keyword stage, for every oracle (so
neither the quick visa check nor any classifier response matters), the
state is unchanged and the number of classifier calls is zero. -/
theorem senior_title_rejected_without_calls (match_threshold : ℚ)
    (max_desc_length : ℕ) (o : Oracle) (s : ScanState) (r : DailyRec)
    (h1 : quick_senior_keyword_check r.title = true)
    (h2 : r.url ∉ s.processed_urls)
    (h3 : pyStrip r.description ≠ "") :
    screen_job match_threshold max_desc_length o r
        = (Outcome.senior_blocked, 0)
    ∧ scanStep match_threshold max_desc_length o s r = (s, 0) := by
  have hsj : screen_job match_threshold max_desc_length o r
      = (Outcome.senior_blocked, 0) := by
    unfold screen_job
    rw [if_pos h1]
  refine ⟨hsj, ?_⟩
  unfold scanStep
  rw [if_neg h2, if_neg h3]
  simp only [hsj]

/-- Witness for C4: a Senior-titled record, an oracle whose every call
fails, and an empty state. -/
theorem senior_title_rejected_without_calls_witness :
    quick_senior_keyword_check "Senior Engineer" = true
    ∧ scanStep 70 100
        { combined := fun _ => Except.error "never called",
          matchResp := fun _ => Except.error "never called",
          extract := fun _ => Except.error "never called" }
        { processed_urls := ∅, good_jobs := [], overlay := [] }
        { title := "Senior Engineer", company := "Acme", location := "NYC",
          search_city := "New York", search_term := "swe", url := "u9",
          description := "a real description", source := "indeed",
          is_remote := "false" }
      = ({ processed_urls := ∅, good_jobs := [], overlay := [] }, 0) :=
  ⟨by decide,
   (senior_title_rejected_without_calls 70 100 _ _ _ (by decide)
      (by simp) (by decide)).2⟩

/-! ## C1: master deduplication -/

/-- A string has length zero exactly when it is empty. -/
theorem str_length_eq_zero (s : String) : s.length = 0 ↔ s = "" := by
  obtain ⟨data⟩ := s
  constructor
  · intro h
    have hd : data = [] := List.length_eq_zero.mp h
    rw [hd]
  · intro h
    rw [h]
    rfl

/-- C1: for a non-empty master, dedupe_against_master returns exactly the
(normalised) batch records not already present in history: a record is in
the output iff it comes from the batch, its URL is not in the master URL
set, and, when it has no URL, its (TITLE, COMPANY, LOCATION) triple is not
a master triple. The two concrete conjuncts instantiate the spec scenarios:
URL u1 known, only the u2 record survives; a URL-less record whose triple
matches history is excluded. -/
theorem dedupe_against_master_exact :
    (∀ (df_raw df_master : List RawRec) (r : RawRec), df_master ≠ [] →
      (r ∈ dedupe_against_master df_raw df_master ↔
        r ∈ df_raw.map stripRec
        ∧ r.url ∉ (df_master.map stripRec).map (fun m => m.url)
        ∧ (r.url = "" →
            tripleKey r ∉ (df_master.map stripRec).map tripleKey)))
    ∧ dedupe_against_master
        [{ title := "T", company := "C", location := "L", url := "u1" },
         { title := "T2", company := "C2", location := "L2", url := "u2" }]
        [{ title := "T", company := "C", location := "L", url := "u1" }]
      = [{ title := "T2", company := "C2", location := "L2", url := "u2" }]
    ∧ dedupe_against_master
        [{ title := "A", company := "B", location := "C", url := "" }]
        [{ title := "A", company := "B", location := "C", url := "" }]
      = [] := by
  refine ⟨?_, by decide, by decide⟩
  intro df_raw df_master r hm
  unfold dedupe_against_master
  by_cases hr : df_raw.isEmpty
  · rw [if_pos hr]
    rw [List.isEmpty_iff] at hr
    subst hr
    simp
  · rw [if_neg hr, if_neg (by simpa [List.isEmpty_iff] using hm)]
    simp [List.mem_filter, List.mem_append, str_length_eq_zero]
    constructor
    · rintro (⟨hA, hC, hB⟩ | ⟨hA, hD, hC, hB⟩)
      · exact ⟨hA, hB, fun hc => absurd hc hC⟩
      · exact ⟨hA, hB, fun _ => hD⟩
    · rintro ⟨hA, hB, hCD⟩
      by_cases hC : r.url = ""
      · exact Or.inr ⟨hA, hCD hC, hC, hB⟩
      · exact Or.inl ⟨hA, hC, hB⟩

/-- Witness for C1: the u2 record is in the output for the concrete
u1-known scenario. -/
theorem dedupe_against_master_exact_witness :
    ({ title := "T2", company := "C2", location := "L2", url := "u2" } : RawRec)
      ∈ dedupe_against_master
        [{ title := "T", company := "C", location := "L", url := "u1" },
         { title := "T2", company := "C2", location := "L2", url := "u2" }]
        [{ title := "T", company := "C", location := "L", url := "u1" }] :=
  (dedupe_against_master_exact.1 _ _ _ (by decide)).mpr (by decide)

/-! ## C3: threshold comparison in parse_match_result -/

/-- The integer comparison inside pfGe decides exactly the rational
comparison threshold <= n / 10 ^ d. -/
theorem pfGe_num_iff (n : ℤ) (d : ℕ) (t : ℚ) :
    pfGe (PFloat.num n d) t = true ↔ t ≤ (n : ℚ) / 10 ^ d := by
  have hd : (0 : ℚ) < 10 ^ d := by positivity
  have ht : (0 : ℚ) < (t.den : ℚ) := by exact_mod_cast t.den_pos
  show decide (t.num * 10 ^ d ≤ n * (t.den : ℤ)) = true ↔ _
  rw [decide_eq_true_eq]
  have hrw : (t ≤ (n : ℚ) / 10 ^ d)
      ↔ ((t.num : ℚ) * 10 ^ d ≤ (n : ℚ) * (t.den : ℚ)) := by
    conv_lhs =>
      rw [show t = (t.num : ℚ) / (t.den : ℚ) from (Rat.num_div_den t).symm]
    exact div_le_div_iff₀ ht hd
  rw [hrw]
  exact ⟨fun h => by exact_mod_cast h, fun h => by exact_mod_cast h⟩

/-- C3: for a record whose Overall value parses as a number n / 10 ^ d,
parse_match_result passes iff that number is at least the configured
threshold; a score equal to the threshold passes and a score one point
below fails; when the Overall value is not numeric, the record passes iff
the uppercased value contains HIGH, MEDIUM or STRONG MATCH. -/
theorem parse_match_threshold_boundary (T : ℚ) (s : String) (hne : s ≠ "") :
    (∀ (n : ℤ) (d : ℕ),
      pyFloat (findOverallRating (pySplitLines s)) = some (PFloat.num n d) →
      ((parse_match_result T s).1 = true ↔ T ≤ (n : ℚ) / 10 ^ d))
    ∧ (∀ (n : ℤ) (d : ℕ),
      pyFloat (findOverallRating (pySplitLines s)) = some (PFloat.num n d) →
      (n : ℚ) / 10 ^ d = T → (parse_match_result T s).1 = true)
    ∧ (∀ (n : ℤ) (d : ℕ),
      pyFloat (findOverallRating (pySplitLines s)) = some (PFloat.num n d) →
      (n : ℚ) / 10 ^ d = T - 1 → (parse_match_result T s).1 = false)
    ∧ (pyFloat (findOverallRating (pySplitLines s)) = none →
      ((parse_match_result T s).1 = true ↔
        (pyIn "HIGH" (pyUpper (findOverallRating (pySplitLines s))) = true
         ∨ pyIn "MEDIUM" (pyUpper (findOverallRating (pySplitLines s))) = true
         ∨ pyIn "STRONG MATCH"
             (pyUpper (findOverallRating (pySplitLines s))) = true))) := by
  have hbase : ∀ v : PFloat,
      pyFloat (findOverallRating (pySplitLines s)) = some v →
      parse_match_result T s
        = (pfGe v T, findOverallRating (pySplitLines s)) := by
    intro v hv
    unfold parse_match_result
    rw [if_neg hne]
    simp only [hv]
  refine ⟨?_, ?_, ?_, ?_⟩
  · intro n d h
    rw [hbase _ h]
    exact pfGe_num_iff n d T
  · intro n d h heq
    rw [hbase _ h]
    exact (pfGe_num_iff n d T).mpr (le_of_eq heq.symm)
  · intro n d h heq
    rw [hbase _ h]
    have hlt : ¬(T ≤ (n : ℚ) / 10 ^ d) := by
      rw [heq]
      exact not_le.mpr (by linarith)
    cases hb : pfGe (PFloat.num n d) T
    · rfl
    · exact absurd ((pfGe_num_iff n d T).mp hb) hlt
  · intro h
    unfold parse_match_result
    rw [if_neg hne]
    simp only [h]
    split_ifs with hc
    · simp only [Bool.or_eq_true] at hc
      constructor
      · intro _
        tauto
      · intro _
        rfl
    · simp only [Bool.or_eq_true, not_or, Bool.not_eq_true] at hc
      simp [hc.1.1, hc.1.2, hc.2]

/-- Witness for C3 at the threshold 70: Overall exactly 70 passes, Overall
69 (one below) fails, and a textual HIGH rating passes via the fallback. -/
theorem parse_match_threshold_boundary_witness :
    (parse_match_result 70 "Overall: 70").1 = true
    ∧ (parse_match_result 70 "Overall: 69").1 = false
    ∧ (parse_match_result 70 "Overall: HIGH").1 = true :=
  ⟨(parse_match_threshold_boundary 70 "Overall: 70" (by decide)).2.1
      70 0 (by decide) (by norm_num),
   (parse_match_threshold_boundary 70 "Overall: 69" (by decide)).2.2.1
      69 0 (by decide) (by norm_num),
   ((parse_match_threshold_boundary 70 "Overall: HIGH" (by decide)).2.2.2
      (by decide)).mpr (Or.inl (by decide))⟩

/-! ## C2: idempotent re-scan (helper lemmas on the funnel state) -/

/-- The staged screening ends in one of the four outcomes, and a pass
produces exactly the row built from the record. -/
theorem screen_job_cases (T : ℚ) (L : ℕ) (o : Oracle) (r : DailyRec) :
    (∃ n, screen_job T L o r = (Outcome.senior_blocked, n))
    ∨ (∃ n, screen_job T L o r = (Outcome.visa_blocked, n))
    ∨ (∃ n, screen_job T L o r = (Outcome.match_failed, n))
    ∨ (∃ jd md vr, screen_job T L o r
        = (Outcome.passed (mkGoodRow r jd md vr), 3)) := by
  simp only [screen_job]
  split_ifs <;>
    first
      | exact Or.inl ⟨_, rfl⟩
      | exact Or.inr (Or.inl ⟨_, rfl⟩)
      | exact Or.inr (Or.inr (Or.inl ⟨_, rfl⟩))
      | exact Or.inr (Or.inr (Or.inr ⟨_, _, _, rfl⟩))

/-- A passed row carries the record's URL. -/
theorem screen_job_passed_url (T : ℚ) (L : ℕ) (o : Oracle) (r : DailyRec)
    (row : GoodRow) (n : ℕ)
    (h : screen_job T L o r = (Outcome.passed row, n)) : row.url = r.url := by
  rcases screen_job_cases T L o r with ⟨m, hm⟩ | ⟨m, hm⟩ | ⟨m, hm⟩
      | ⟨jd, md, vr, hm⟩ <;> rw [hm] at h
  · simp at h
  · simp at h
  · simp at h
  · simp only [Prod.mk.injEq, Outcome.passed.injEq] at h
    rw [← h.1]
    rfl

/-- A record whose URL is already processed is skipped outright: no state
change and zero classifier calls. -/
theorem scanStep_skip (T : ℚ) (L : ℕ) (o : Oracle) (s : ScanState)
    (r : DailyRec) (h : r.url ∈ s.processed_urls) :
    scanStep T L o s r = (s, 0) := by
  unfold scanStep
  rw [if_pos h]

/-- One funnel step either leaves the state unchanged or appends exactly
the passed row and inserts its URL. -/
theorem scanStep_state (T : ℚ) (L : ℕ) (o : Oracle) (s : ScanState)
    (r : DailyRec) :
    (scanStep T L o s r).1 = s
    ∨ ∃ row n, screen_job T L o r = (Outcome.passed row, n)
        ∧ r.url ∉ s.processed_urls ∧ row.url = r.url
        ∧ (scanStep T L o s r).1
          = { s with good_jobs := s.good_jobs ++ [row],
                     processed_urls := insert r.url s.processed_urls } := by
  unfold scanStep
  by_cases h1 : r.url ∈ s.processed_urls
  · rw [if_pos h1]
    exact Or.inl rfl
  · rw [if_neg h1]
    by_cases h2 : pyStrip r.description = ""
    · rw [if_pos h2]
      exact Or.inl rfl
    · rw [if_neg h2]
      rcases hsj : screen_job T L o r with ⟨out, n⟩
      cases out with
      | passed row =>
        exact Or.inr ⟨row, n, rfl, h1,
          screen_job_passed_url T L o r row n hsj, rfl⟩
      | senior_blocked => exact Or.inl rfl
      | visa_blocked => exact Or.inl rfl
      | match_failed => exact Or.inl rfl

/-- One funnel step only grows the processed-URL set. -/
theorem scanStep_processed_mono (T : ℚ) (L : ℕ) (o : Oracle) (s : ScanState)
    (r : DailyRec) :
    s.processed_urls ⊆ (scanStep T L o s r).1.processed_urls := by
  rcases scanStep_state T L o s r with h | ⟨row, n, _, _, _, h⟩
  · rw [h]
  · rw [h]
    exact Finset.subset_insert _ _

/-- One funnel step never touches the status overlay. -/
theorem scanStep_overlay (T : ℚ) (L : ℕ) (o : Oracle) (s : ScanState)
    (r : DailyRec) : (scanStep T L o s r).1.overlay = s.overlay := by
  rcases scanStep_state T L o s r with h | ⟨row, n, _, _, _, h⟩ <;> rw [h]

/-- The record loop only grows the processed-URL set. -/
theorem scanFold_processed_mono (T : ℚ) (L : ℕ) (o : Oracle) :
    ∀ (rs : List DailyRec) (s : ScanState),
      s.processed_urls ⊆ (scanFold T L o s rs).1.processed_urls := by
  intro rs
  induction rs with
  | nil => intro s; exact Finset.Subset.refl _
  | cons r rest ih =>
    intro s
    exact (scanStep_processed_mono T L o s r).trans
      (ih (scanStep T L o s r).1)

/-- The record loop never touches the status overlay. -/
theorem scanFold_overlay (T : ℚ) (L : ℕ) (o : Oracle) :
    ∀ (rs : List DailyRec) (s : ScanState),
      (scanFold T L o s rs).1.overlay = s.overlay := by
  intro rs
  induction rs with
  | nil => intro s; rfl
  | cons r rest ih =>
    intro s
    exact (ih (scanStep T L o s r).1).trans (scanStep_overlay T L o s r)

/-- Replaying one record against any state that already absorbed its first
processing leaves that state unchanged. -/
theorem scanStep_second (T : ℚ) (L : ℕ) (o : Oracle) (s s' : ScanState)
    (r : DailyRec)
    (hsub : (scanStep T L o s r).1.processed_urls ⊆ s'.processed_urls) :
    (scanStep T L o s' r).1 = s' := by
  by_cases h1 : r.url ∈ s'.processed_urls
  · rw [scanStep_skip T L o s' r h1]
  · by_cases h2 : pyStrip r.description = ""
    · unfold scanStep
      rw [if_neg h1, if_pos h2]
    · have hnp : ∀ row n, screen_job T L o r ≠ (Outcome.passed row, n) := by
        intro row n heq
        apply h1
        apply hsub
        by_cases h3 : r.url ∈ s.processed_urls
        · rw [scanStep_skip T L o s r h3]
          exact h3
        · unfold scanStep
          rw [if_neg h3, if_neg h2]
          simp only [heq]
          exact Finset.mem_insert_self _ _
      unfold scanStep
      rw [if_neg h1, if_neg h2]
      rcases hsj : screen_job T L o r with ⟨out, n⟩
      cases out with
      | passed row => exact absurd hsj (hnp row n)
      | senior_blocked => rfl
      | visa_blocked => rfl
      | match_failed => rfl

/-- Replaying the whole record loop from its own final state changes
nothing. -/
theorem scanFold_idem (T : ℚ) (L : ℕ) (o : Oracle) :
    ∀ (rs : List DailyRec) (s : ScanState),
      (scanFold T L o (scanFold T L o s rs).1 rs).1
        = (scanFold T L o s rs).1 := by
  intro rs
  induction rs with
  | nil => intro s; rfl
  | cons r rest ih =>
    intro s
    have hstep : (scanStep T L o (scanFold T L o s (r :: rest)).1 r).1
        = (scanFold T L o s (r :: rest)).1 := by
      apply scanStep_second
      exact scanFold_processed_mono T L o rest (scanStep T L o s r).1
    show (scanFold T L o
        (scanStep T L o (scanFold T L o s (r :: rest)).1 r).1 rest).1
      = (scanFold T L o s (r :: rest)).1
    rw [hstep]
    show (scanFold T L o
        (scanFold T L o (scanStep T L o s r).1 rest).1 rest).1
      = (scanFold T L o (scanStep T L o s r).1 rest).1
    exact ih (scanStep T L o s r).1

/-- One funnel step preserves the equality between the URL column of the
result store and the processed-URL set. -/
theorem scanStep_urls_inv (T : ℚ) (L : ℕ) (o : Oracle) (s : ScanState)
    (r : DailyRec) (h : urlsOf s.good_jobs = s.processed_urls) :
    urlsOf (scanStep T L o s r).1.good_jobs
      = (scanStep T L o s r).1.processed_urls := by
  rcases scanStep_state T L o s r with hst | ⟨row, n, _, _, hu, hst⟩
  · rw [hst]
    exact h
  · rw [hst]
    show urlsOf (s.good_jobs ++ [row]) = insert r.url s.processed_urls
    rw [← h, ← hu]
    ext x
    simp [urlsOf]
    aesop

/-- The record loop preserves the equality between the URL column of the
result store and the processed-URL set. -/
theorem scanFold_urls_inv (T : ℚ) (L : ℕ) (o : Oracle) :
    ∀ (rs : List DailyRec) (s : ScanState),
      urlsOf s.good_jobs = s.processed_urls →
      urlsOf (scanFold T L o s rs).1.good_jobs
        = (scanFold T L o s rs).1.processed_urls := by
  intro rs
  induction rs with
  | nil => intro s h; exact h
  | cons r rest ih =>
    intro s h
    exact ih (scanStep T L o s r).1 (scanStep_urls_inv T L o s r h)

/-- C2: running the funnel a second time over the same batch, with the
processed-URL set reloaded from the result store produced by the first run,
appends zero additional rows; and a record whose URL is in the set of
already-processed URLs is skipped entirely, with zero classifier calls,
before any screening stage runs. -/
theorem rescan_appends_no_rows (T : ℚ) (L : ℕ) (o : Oracle)
    (good0 : List GoodRow) (ov : List (String × JobStatus))
    (batch : List DailyRec) :
    (scanFold T L o
        { processed_urls :=
            urlsOf (scanFold T L o
              { processed_urls := urlsOf good0, good_jobs := good0,
                overlay := ov } batch).1.good_jobs,
          good_jobs := (scanFold T L o
              { processed_urls := urlsOf good0, good_jobs := good0,
                overlay := ov } batch).1.good_jobs,
          overlay := (scanFold T L o
              { processed_urls := urlsOf good0, good_jobs := good0,
                overlay := ov } batch).1.overlay } batch).1.good_jobs
      = (scanFold T L o
          { processed_urls := urlsOf good0, good_jobs := good0,
            overlay := ov } batch).1.good_jobs
    ∧ ∀ (s : ScanState) (r : DailyRec), r.url ∈ s.processed_urls →
        scanStep T L o s r = (s, 0) := by
  constructor
  · set s0 : ScanState :=
      { processed_urls := urlsOf good0, good_jobs := good0, overlay := ov }
      with hs0
    set s1 := (scanFold T L o s0 batch).1 with hs1
    have hinv : urlsOf s1.good_jobs = s1.processed_urls :=
      scanFold_urls_inv T L o batch s0 rfl
    have heq : (⟨urlsOf s1.good_jobs, s1.good_jobs, s1.overlay⟩ : ScanState)
        = s1 := by
      rw [hinv]
    rw [heq, hs1]
    rw [scanFold_idem T L o batch s0]
  · intro s r h
    exact scanStep_skip T L o s r h

/-- Witness for C2's skip guard at a concrete state and record. -/
theorem rescan_appends_no_rows_witness :
    scanStep 70 100
        { combined := fun _ => Except.error "e",
          matchResp := fun _ => Except.error "e",
          extract := fun _ => Except.error "e" }
        { processed_urls := {"u0"}, good_jobs := [], overlay := [] }
        { title := "Engineer", company := "Acme", location := "NYC",
          search_city := "New York", search_term := "swe", url := "u0",
          description := "jd text", source := "indeed",
          is_remote := "false" }
      = ({ processed_urls := {"u0"}, good_jobs := [], overlay := [] }, 0) :=
  (rescan_appends_no_rows 70 100 _ [] [] []).2 _ _ (by simp)

/-! ## C7: status overlay frame and read-time default -/

/-- Counterexample to C7 as stated: the read-time join can assign
not_applied to a record whose identity IS present in the overlay (an entry
explicitly stored as not_applied, which update_status can write), so
"status not_applied exactly when the identity is absent" fails in the
only-if direction. -/
theorem overlay_not_applied_present_entry :
    (csv_row_to_job row0 [(row0_id, JobStatus.not_applied)]).status
      = JobStatus.not_applied
    ∧ List.lookup row0_id [(row0_id, JobStatus.not_applied)] ≠ none := by
  constructor
  · show (List.lookup (generate_job_id row0.company row0.title row0.url)
        [(row0_id, JobStatus.not_applied)]).getD JobStatus.not_applied
      = JobStatus.not_applied
    simp [row0_id, List.lookup]
  · simp [List.lookup]

/-- C7 amended: the funnel never mutates the status overlay — the scan loop
leaves the overlay exactly as it was, for any processed-URL set (in
particular with the idempotency guard cleared), so an existing applied
entry survives re-screening; the read-time join assigns not_applied when
the identity is absent from the overlay, and otherwise returns the stored
overlay value (which may itself be not_applied, so not_applied does not
imply absence). -/
theorem funnel_preserves_overlay (T : ℚ) (L : ℕ) (o : Oracle)
    (s : ScanState) (batch : List DailyRec) :
    ((scanFold T L o s batch).1.overlay = s.overlay)
    ∧ (∀ i : String, s.overlay.lookup i = some JobStatus.applied →
        (scanFold T L o s batch).1.overlay.lookup i
          = some JobStatus.applied)
    ∧ (∀ (row : GoodRow) (statuses : List (String × JobStatus)),
        statuses.lookup (generate_job_id row.company row.title row.url)
            = none →
        (csv_row_to_job row statuses).status = JobStatus.not_applied)
    ∧ (∀ (row : GoodRow) (statuses : List (String × JobStatus))
          (st0 : JobStatus),
        statuses.lookup (generate_job_id row.company row.title row.url)
            = some st0 →
        (csv_row_to_job row statuses).status = st0) := by
  refine ⟨scanFold_overlay T L o batch s, ?_, ?_, ?_⟩
  · intro i h
    rw [scanFold_overlay T L o batch s]
    exact h
  · intro row statuses h
    show (statuses.lookup
        (generate_job_id row.company row.title row.url)).getD
        JobStatus.not_applied = JobStatus.not_applied
    rw [h]
    rfl
  · intro row statuses st0 h
    show (statuses.lookup
        (generate_job_id row.company row.title row.url)).getD
        JobStatus.not_applied = st0
    rw [h]
    rfl

/-- Witness for C7 amended: a concrete applied entry survives scanning one
record with the guard cleared, and a record absent from the overlay joins
as not_applied. -/
theorem funnel_preserves_overlay_witness :
    (scanFold 70 100
        { combined := fun _ => Except.error "e",
          matchResp := fun _ => Except.error "e",
          extract := fun _ => Except.error "e" }
        { processed_urls := ∅, good_jobs := [],
          overlay := [("id-applied", JobStatus.applied)] }
        [{ title := "Engineer", company := "Acme", location := "NYC",
           search_city := "New York", search_term := "swe", url := "u0",
           description := "jd text", source := "indeed",
           is_remote := "false" }]).1.overlay.lookup "id-applied"
      = some JobStatus.applied
    ∧ (csv_row_to_job row0 []).status = JobStatus.not_applied :=
  ⟨(funnel_preserves_overlay 70 100 _ _ _).2.1 "id-applied"
      (by simp [List.lookup]),
   (funnel_preserves_overlay 70 100
      { combined := fun _ => Except.error "e",
        matchResp := fun _ => Except.error "e",
        extract := fun _ => Except.error "e" }
      { processed_urls := ∅, good_jobs := [], overlay := [] }
      []).2.2.1 row0 [] rfl⟩

end GLFJ
